import Mathlib

/-!
Verification of the enrichment / risk-scoring pipeline of this repository.

The development shallowly embeds the two scripts:
* `HeatmapAdder` embeds `heatmap_adder.py` (class `AdvancedComplianceReporter`):
  tables are lists of records, pandas row iteration becomes `List.map`, the
  reference-table lookup `priority_df[priority_df["control_title"] == ct].iloc[0]`
  becomes `List.find?`, `groupby` becomes key de-duplication (group keys emitted
  in sorted order, as pandas does) followed by per-key filtering, and `nlargest`
  becomes a descending stable sort followed by `take`.
* `PivotReport` embeds `powerpipe_graph_analysis_pivot_table.py`
  (`create_simplified_report_with_pivot`): the numeric-priority word mapping,
  the safe/unsafe split, and the per-category grouped summary sheets, where a
  pandas `groupby` drops rows whose grouping key is missing (`NaN`), and the
  blank separator row is appended whenever the accumulated `summary_data` list
  is non-empty.

Floating-point risk scores are modelled as exact rationals: every value the
formula can produce (products of {10,5,2,0} with {1.5,0.1,0.2,1}) is exactly
representable with two decimal digits, so Python float arithmetic and
`round(_, 2)` agree with the rational computation on all reachable values.
-/

namespace HeatmapAdder

/-- One row of the input compliance table (columns referenced by the script). -/
structure ComplianceRow where
  title : String
  control_title : String
  control_description : String
  status : String
  region : String
  account_id : String
  resource : String
  reason : String

/-- One row of the priority-annotations reference table. -/
structure PriorityRecord where
  control_title : String
  priority : String
  recommendation : String

/-- A compliance row after `enrich_data`: the original columns plus the three
fields written by the enrichment loop. -/
structure EnrichedRow extends ComplianceRow where
  priority : String
  recommendation : String
  risk_score : ℚ

/-- `ComplianceConfig.PRIORITY_IMPACT.get(priority, 0)`. -/
def PRIORITY_IMPACT (priority : String) : ℚ :=
  if priority = "High" then 10
  else if priority = "Medium" then 5
  else if priority = "Low" then 2
  else if priority = "Safe" then 0
  else 0

/-- The status-multiplier dictionary `.get(status, 1)` in `_calculate_risk_score`. -/
def status_multiplier (status : String) : ℚ :=
  if status = "alarm" then 1.5
  else if status = "ok" then 0.1
  else if status = "info" then 0.2
  else if status = "skip" then 0.1
  else 1

/-- Rounding to two decimal places.  On every value reachable in this pipeline
the argument times 100 is an integer, so no tie-breaking rule is ever
exercised and this agrees with Python `round(_, 2)`. -/
def round2 (x : ℚ) : ℚ :=
  ((round (x * 100) : ℤ) : ℚ) / 100

/-- `AdvancedComplianceReporter._calculate_risk_score`. -/
def _calculate_risk_score (priority status : String) : ℚ :=
  round2 (PRIORITY_IMPACT priority * status_multiplier status)

/-- The body of the `enrich_data` loop for one row: first matching reference
record by `control_title`, or the default values when there is none. -/
def enrichRow (ref : List PriorityRecord) (r : ComplianceRow) : EnrichedRow :=
  match ref.find? (fun p => p.control_title == r.control_title) with
  | some p => ⟨r, p.priority, p.recommendation, _calculate_risk_score p.priority r.status⟩
  | none => ⟨r, "No Priority", "No recommendation available", 0⟩

/-- `AdvancedComplianceReporter.enrich_data`: one enriched row per input row,
in input order. -/
def enrich_data (rows : List ComplianceRow) (ref : List PriorityRecord) : List EnrichedRow :=
  rows.map (enrichRow ref)

/-- `df['status'].isin(['ok', 'info', 'skip'])`. -/
def passedStatus (status : String) : Bool :=
  status == "ok" || status == "info" || status == "skip"

/-- `AdvancedComplianceReporter.calculate_compliance_score` (computed on the
input table, before enrichment). -/
def calculate_compliance_score (rows : List ComplianceRow) : ℚ :=
  ((rows.countP (fun r => passedStatus r.status) : ℚ) / (rows.length : ℚ)) * 100

/-- Code-point comparison of character lists, the order Python / pandas uses to
sort the (ASCII) strings appearing in these tables. -/
def lexLeChars : List Char → List Char → Bool
  | [], _ => true
  | _ :: _, [] => false
  | a :: as, b :: bs =>
    if a.toNat < b.toNat then true
    else if b.toNat < a.toNat then false
    else lexLeChars as bs

/-- String comparison used when pandas emits sorted group keys. -/
def strLeB (a b : String) : Bool :=
  lexLeChars a.data b.data

/-- Total risk score of a list of rows (`['risk_score'].sum()`). -/
def sumRisk (rows : List EnrichedRow) : ℚ :=
  (rows.map EnrichedRow.risk_score).sum

/-- The distinct service titles of a table, in sorted order: the group keys of
`groupby('title')`. -/
def serviceTitles (rows : List EnrichedRow) : List String :=
  ((rows.map (fun r => r.title)).dedup).mergeSort strLeB

/-- `groupby('title')['risk_score'].sum()`: one `(title, summed risk)` pair per
distinct title. -/
def groupSums (rows : List EnrichedRow) : List (String × ℚ) :=
  (serviceTitles rows).map (fun t => (t, sumRisk (rows.filter (fun r => r.title == t))))

/-- Comparison placing larger scores first; used to model `nlargest`. -/
def valueDescLe (a b : String × ℚ) : Bool :=
  decide (b.2 ≤ a.2)

/-- `Series.nlargest(5)`: the five largest entries, score descending. -/
def nlargest5 (entries : List (String × ℚ)) : List (String × ℚ) :=
  (entries.mergeSort valueDescLe).take 5

/-- The `high_risk_services` expression of `generate_executive_summary`:
`enriched_df[enriched_df['risk_score'] > 5].groupby('title')['risk_score'].sum().nlargest(5)`.
Note the `> 5` filter is applied to individual rows before grouping. -/
def high_risk_services (rows : List EnrichedRow) : List (String × ℚ) :=
  nlargest5 (groupSums (rows.filter (fun r => decide (5 < r.risk_score))))

/-- The ranking as the specification describes it: group by title, sum the
risk scores, keep the entries whose summed score exceeds 5, take the top 5. -/
def high_risk_services_spec (rows : List EnrichedRow) : List (String × ℚ) :=
  nlargest5 ((groupSums rows).filter (fun p => decide (5 < p.2)))

/-- One record of the top-recommendations list (the projected columns). -/
structure TopRecommendation where
  title : String
  control_title : String
  recommendation : String
  risk_score : ℚ

/-- Comparison placing larger risk scores first (`ascending=False`). -/
def riskDescLe (a b : EnrichedRow) : Bool :=
  decide (b.risk_score ≤ a.risk_score)

/-- Projection of an enriched row onto the four reported columns. -/
def projectRec (r : EnrichedRow) : TopRecommendation :=
  ⟨r.title, r.control_title, r.recommendation, r.risk_score⟩

/-- `AdvancedComplianceReporter._extract_top_recommendations` with the default
`top_n=5`: filter `risk_score > 0`, sort descending, head 5, project columns. -/
def _extract_top_recommendations (rows : List EnrichedRow) : List TopRecommendation :=
  (((rows.filter (fun r => decide (0 < r.risk_score))).mergeSort riskDescLe).take 5).map projectRec

/-- Outcome of `_load_input_file`: which reader the path is dispatched to. -/
inductive TableFormat where
  | csv
  | excel
deriving DecidableEq

/-- Python `str.endswith`: suffix test on the character sequence. -/
def strEndsWith (s pat : String) : Bool :=
  pat.data.isSuffixOf s.data

/-- `AdvancedComplianceReporter._load_input_file`, reduced to its dispatch:
`.csv` goes to `read_csv`, `.xlsx`/`.xls` to `read_excel`, anything else
raises `ValueError`. -/
def _load_input_file (path : String) : Except String TableFormat :=
  if strEndsWith path ".csv" then Except.ok TableFormat.csv
  else if strEndsWith path ".xlsx" || strEndsWith path ".xls" then Except.ok TableFormat.excel
  else Except.error "Unsupported file type. Use CSV or Excel."

end HeatmapAdder

namespace PivotReport

/-- One row of the report file read by `create_simplified_report_with_pivot`,
before the priority-word mapping (the `priority` column holds numeric codes). -/
structure InputRow where
  title : String
  control_title : String
  control_description : String
  status : String
  priority : Int

/-- A row after the two preprocessing assignments: `is_open_issue` has been
computed and `priority` replaced through `priority_map` (a code outside the
map becomes a missing value, `none`). -/
structure Row where
  title : String
  control_title : String
  control_description : String
  status : String
  priority : Option String
  is_open_issue : ℕ

/-- `priority_map = {1: "High", 2: "Medium", 3: "Low"}`; `Series.map` sends
every key absent from the dictionary to `NaN`, modelled as `none`. -/
def priority_map (n : Int) : Option String :=
  if n = 1 then some "High"
  else if n = 2 then some "Medium"
  else if n = 3 then some "Low"
  else none

/-- The two column assignments at the top of
`create_simplified_report_with_pivot`. -/
def preprocess (r : InputRow) : Row :=
  ⟨r.title, r.control_title, r.control_description, r.status,
    priority_map r.priority, if r.status = "alarm" then 1 else 0⟩

/-- The fixed `categories` dictionary of the script, in insertion order. -/
def categories : List (String × List String) :=
  [("Security and Identity",
      ["IAM", "ACM", "KMS", "GuardDuty", "Secret Manager", "Secret Hub", "SSM"]),
   ("Compute",
      ["Auto Scaling", "EC2", "ECS", "EKS", "Lambda", "EMR", "Step Functions"]),
   ("Storage",
      ["EBS", "ECR", "S3", "DLM", "Backup"]),
   ("Network",
      ["API Gateway", "CloudFront", "Route 53", "VPC", "ELB", "ElasticCache", "CloudTrail"]),
   ("Database",
      ["RDS", "DynamoDB", "Athena", "Glue"]),
   ("Other",
      ["CloudFormation", "CodeDeploy", "Config", "SNS", "SQS", "WorkSpaces", "EventBridge",
       "Config"])]

/-- `safe_df = df[df['status'] != 'alarm']`. -/
def safeRows (rows : List Row) : List Row :=
  rows.filter (fun r => !(r.status == "alarm"))

/-- `unsafe_df = df[df['status'] == 'alarm']`. -/
def unsafeRows (rows : List Row) : List Row :=
  rows.filter (fun r => r.status == "alarm")

/-- A grouping key of the summary `groupby`:
`(title, control_title, control_description, priority)`. -/
abbrev GroupKey := String × String × String × String

/-- The grouping key of a row, or `none` when its mapped priority is missing
(pandas `groupby` drops such rows). -/
def rowKey (r : Row) : Option GroupKey :=
  r.priority.map (fun p => (r.title, r.control_title, r.control_description, p))

/-- Strict code-point order on strings. -/
def strLtB (a b : String) : Bool :=
  HeatmapAdder.strLeB a b && !(a == b)

/-- Lexicographic order on grouping keys, the order pandas emits group rows in. -/
def keyLe (a b : GroupKey) : Bool :=
  if a.1 ≠ b.1 then strLtB a.1 b.1
  else if a.2.1 ≠ b.2.1 then strLtB a.2.1 b.2.1
  else if a.2.2.1 ≠ b.2.2.1 then strLtB a.2.2.1 b.2.2.1
  else HeatmapAdder.strLeB a.2.2.2 b.2.2.2

/-- The distinct grouping keys of a list of rows, rows with a missing priority
dropped, emitted in sorted order. -/
def groupKeys (rows : List Row) : List GroupKey :=
  List.insertionSort (fun a b => keyLe a b = true) ((rows.filterMap rowKey).dedup)

/-- `.agg({'is_open_issue': 'sum'})` for one group. -/
def openCount (rows : List Row) (k : GroupKey) : ℕ :=
  ((rows.filter (fun r => decide (rowKey r = some k))).map Row.is_open_issue).sum

/-- One non-blank row of the `table` / `table_safe` sheets (the `Sr No`
counter column carries no information and is omitted). -/
structure SummaryRow where
  service : String
  control_title : String
  description : String
  priority : String
  openIssues : ℕ

/-- The grouped rows one category contributes to the summary sheet:
`service_df = df[df['title'].isin(categories[service])]` followed by the
four-column `groupby` with summed `is_open_issue`. -/
def chunk (svcList : List String) (rows : List Row) : List SummaryRow :=
  (groupKeys (rows.filter (fun r => decide (r.title ∈ svcList)))).map
    (fun k => ⟨k.1, k.2.1, k.2.2.1, k.2.2.2,
      openCount (rows.filter (fun r => decide (r.title ∈ svcList))) k⟩)

/-- One iteration of the summary loop: append the category's grouped rows to
`summary_data`, then append one blank row (`none`) whenever the accumulated
list is non-empty — the literal `if summary_data:` test of the source. -/
def summStep (rows : List Row) (acc : List (Option SummaryRow)) (c : String × List String) :
    List (Option SummaryRow) :=
  if (acc ++ (chunk c.2 rows).map some).isEmpty then acc ++ (chunk c.2 rows).map some
  else (acc ++ (chunk c.2 rows).map some) ++ [none]

/-- The whole emitted summary sequence (`summary_data`) of the `table` sheet;
applied to the safe subset it yields the `table_safe` sheet. -/
def categorySummary (rows : List Row) : List (Option SummaryRow) :=
  categories.foldl (summStep rows) []

/-- The summary sequence as the amended claim words it: after each category,
one blank row exactly when that category or an earlier one contributed at
least one grouped row (`seen` records whether any earlier category did). -/
def specSummaryGo (rows : List Row) : List (String × List String) → Bool → List (Option SummaryRow)
  | [], _ => []
  | c :: cs, seen =>
    ((chunk c.2 rows).map some ++
      (if seen || !((chunk c.2 rows).map some).isEmpty then [none] else [])) ++
      specSummaryGo rows cs (seen || !((chunk c.2 rows).map some).isEmpty)

/-- Entry point of the amended-claim summary description. -/
def categorySummarySpec (rows : List Row) : List (Option SummaryRow) :=
  specSummaryGo rows categories false

/-- The per-category summary rows as the amended claim words them: one row
per distinct grouping key (rows with a missing mapped priority dropped), with
Open Issues the number of alarm rows in that group. -/
def claimChunk (svcList : List String) (rows : List Row) : List SummaryRow :=
  (groupKeys (rows.filter (fun r => decide (r.title ∈ svcList)))).map
    (fun k => ⟨k.1, k.2.1, k.2.2.1, k.2.2.2,
      (rows.filter (fun r => decide (r.title ∈ svcList))).countP
        (fun r => decide (r.status = "alarm") && decide (rowKey r = some k))⟩)

/-- The distinct `(title, control_title, control_description, priority)`
combinations among input rows whose title belongs to a category's service
list — the row set the claim predicts for a category (priority taken as
loaded, before the word mapping). -/
def claimedCombos (input : List InputRow) (svcList : List String) : List (String × String × String × Int) :=
  ((input.filter (fun r => decide (r.title ∈ svcList))).map
    (fun r => (r.title, r.control_title, r.control_description, r.priority))).dedup

/-- Number of categories with at least one matching combination: the number of
blank separator rows the claim predicts. -/
def claimedBlankCount (input : List InputRow) : ℕ :=
  categories.countP (fun c => !(claimedCombos input c.2).isEmpty)

/-- Total number of summary rows the claim predicts over all categories. -/
def claimedRowCount (input : List InputRow) : ℕ :=
  (categories.map (fun c => (claimedCombos input c.2).length)).sum

end PivotReport

namespace HeatmapAdder

/-- Example compliance row used by the concrete witnesses. -/
def exRowA : ComplianceRow :=
  ⟨"EC2", "ctlA", "descA", "alarm", "us-east-1", "111", "arn:aws:ec2:i-1", "why"⟩

/-- Example reference table whose single record does not match `exRowA`. -/
def exRefB : List PriorityRecord := [⟨"ctlB", "High", "fix B"⟩]

/-- Example reference record matching `exRowA`. -/
def exRefA : List PriorityRecord := [⟨"ctlA", "High", "apply fix"⟩]

/-- Example reference table with two records sharing the control_title of
`exRowA`. -/
def dupRef : List PriorityRecord :=
  [⟨"ctlA", "High", "first fix"⟩, ⟨"ctlA", "Low", "second fix"⟩]

/-- Example enriched row with a positive risk score. -/
def exE15 : EnrichedRow := ⟨exRowA, "High", "apply fix", 15⟩

/-- Shared compliance-row builder for the concrete ranking examples. -/
def mkRow (t ct status : String) : ComplianceRow :=
  ⟨t, ct, "desc", status, "reg", "acct", "res", "why"⟩

/-- Two rows of the same service, each with risk score 3. -/
def exC2 : List EnrichedRow :=
  [⟨mkRow "EC2" "c1" "alarm", "Low", "fix", 3⟩,
   ⟨mkRow "EC2" "c2" "alarm", "Low", "fix", 3⟩]

/-- One row with risk score 15 for the C2 witness. -/
def exC2w : List EnrichedRow := [⟨mkRow "EC2" "c1" "alarm", "High", "fix", 15⟩]

end HeatmapAdder

namespace PivotReport

/-- Counterexample input for C3: one IAM row whose numeric priority maps to
"High", and one EC2 row whose numeric priority 7 the word mapping sends to a
missing value. -/
def exC3 : List InputRow :=
  [⟨"IAM", "c1", "d1", "alarm", 1⟩, ⟨"EC2", "c2", "d2", "alarm", 7⟩]

/-- A single row with an unmapped numeric priority, for the C10 witness. -/
def exC10 : List InputRow := [⟨"IAM", "c1", "d1", "ok", 7⟩]

end PivotReport

namespace HeatmapAdder

/-- Both branches of the enrichment loop leave the original columns intact. -/
theorem enrichRow_toComplianceRow (ref : List PriorityRecord) (r : ComplianceRow) :
    (enrichRow ref r).toComplianceRow = r := by
  unfold enrichRow
  cases ref.find? (fun p => p.control_title == r.control_title) <;> rfl

/-- `find?` over a decomposed list returns the designated first match. -/
theorem find?_first_match (pre post : List PriorityRecord) (p : PriorityRecord) (ct : String)
    (hpre : ∀ q ∈ pre, q.control_title ≠ ct) (hp : p.control_title = ct) :
    (pre ++ p :: post).find? (fun q => q.control_title == ct) = some p := by
  induction pre with
  | nil =>
    have : (p.control_title == ct) = true := beq_iff_eq.mpr hp
    simp [List.find?_cons, this]
  | cons q pre ih =>
    have hq : (q.control_title == ct) = false := by
      simpa using hpre q (by simp)
    simp only [List.cons_append, List.find?_cons, hq]
    exact ih (fun q' hq' => hpre q' (by simp [hq']))

end HeatmapAdder

open HeatmapAdder

/-- C9: the Enricher changes no field of a row other than the three it writes
(priority, recommendation, risk_score): projecting every enriched row back to
its original columns recovers the input table exactly, and the input table is
itself a pure value that enrichment never mutates. -/
theorem C9_enrich_preserves_fields (rows : List ComplianceRow) (ref : List PriorityRecord) :
    (enrich_data rows ref).map EnrichedRow.toComplianceRow = rows := by
  unfold enrich_data
  rw [List.map_map]
  have h : EnrichedRow.toComplianceRow ∘ enrichRow ref = id := by
    funext r
    exact enrichRow_toComplianceRow ref r
  rw [h, List.map_id]

/-- C6: a row whose control_title matches no reference record is still
enriched (the total function returns a row, it cannot fail), with
priority "No Priority", recommendation "No recommendation available" and
risk_score 0. -/
theorem C6_unmatched_row_defaults (rows : List ComplianceRow) (ref : List PriorityRecord)
    (i : ℕ) (r : ComplianceRow) (hr : rows[i]? = some r)
    (h : ∀ p ∈ ref, p.control_title ≠ r.control_title) :
    (enrich_data rows ref)[i]? =
      some ⟨r, "No Priority", "No recommendation available", 0⟩ := by
  have hfind : ref.find? (fun p => p.control_title == r.control_title) = none := by
    rw [List.find?_eq_none]
    intro p hp
    simpa using h p hp
  simp [enrich_data, List.getElem?_map, hr, enrichRow, hfind]

/-- Witness for C6 at a concrete unmatched row. -/
theorem C6_witness :
    (enrich_data [exRowA] exRefB)[0]? =
      some ⟨exRowA, "No Priority", "No recommendation available", 0⟩ :=
  C6_unmatched_row_defaults [exRowA] exRefB 0 exRowA rfl (by decide)

/-- C5: enrichment yields exactly one output row per input row, in the same
positions, and when several reference records share a control_title the
attached priority and recommendation come from the first matching record in
reference-table order. -/
theorem C5_one_output_first_match (rows : List ComplianceRow) (ref : List PriorityRecord) :
    (enrich_data rows ref).length = rows.length ∧
    (∀ i : ℕ, (enrich_data rows ref)[i]? = Option.map (enrichRow ref) rows[i]?) ∧
    (∀ pre p post, ref = pre ++ p :: post →
      ∀ r : ComplianceRow, r.control_title = p.control_title →
        (∀ q ∈ pre, q.control_title ≠ r.control_title) →
        (enrichRow ref r).priority = p.priority ∧
        (enrichRow ref r).recommendation = p.recommendation) := by
  refine ⟨by simp [enrich_data], fun i => by simp [enrich_data, List.getElem?_map], ?_⟩
  intro pre p post href r hct hpre
  have hfind : ref.find? (fun q => q.control_title == r.control_title) = some p := by
    rw [href]
    exact find?_first_match pre post p r.control_title
      (fun q hq => hpre q hq) hct.symm
  simp [enrichRow, hfind]

/-- Witness for C5: with duplicate reference records, the first one wins. -/
theorem C5_witness :
    (enrich_data [exRowA] dupRef).length = 1 ∧
    (enrichRow dupRef exRowA).priority = "High" ∧
    (enrichRow dupRef exRowA).recommendation = "first fix" := by
  obtain ⟨h1, _, h3⟩ := C5_one_output_first_match [exRowA] dupRef
  have h4 := h3 [] ⟨"ctlA", "High", "first fix"⟩ [⟨"ctlA", "Low", "second fix"⟩]
    rfl exRowA rfl (by simp)
  exact ⟨h1, h4.1, h4.2⟩

/-- C8: the loader dispatches on the file extension — ".csv" to the
delimited-text reader, ".xlsx"/".xls" to the spreadsheet reader — and fails
with a format error on any other path. -/
theorem C8_loader_dispatch (path : String) :
    (strEndsWith path ".csv" = true → _load_input_file path = Except.ok TableFormat.csv) ∧
    (strEndsWith path ".csv" = false →
      (strEndsWith path ".xlsx" || strEndsWith path ".xls") = true →
      _load_input_file path = Except.ok TableFormat.excel) ∧
    (strEndsWith path ".csv" = false → strEndsWith path ".xlsx" = false →
      strEndsWith path ".xls" = false →
      _load_input_file path = Except.error "Unsupported file type. Use CSV or Excel.") := by
  unfold _load_input_file
  refine ⟨fun h1 => by simp [h1], fun h1 h2 => by simp [h1, h2], fun h1 h2 h3 => by simp [h1, h2, h3]⟩

/-- Witness for C8 on three concrete paths, one per dispatch branch. -/
theorem C8_witness :
    _load_input_file "report.csv" = Except.ok TableFormat.csv ∧
    _load_input_file "report.xlsx" = Except.ok TableFormat.excel ∧
    _load_input_file "report.txt" = Except.error "Unsupported file type. Use CSV or Excel." :=
  ⟨(C8_loader_dispatch "report.csv").1 (by decide),
   (C8_loader_dispatch "report.xlsx").2.1 (by decide) (by decide),
   (C8_loader_dispatch "report.txt").2.2 (by decide) (by decide) (by decide)⟩

/-- C4: for a non-empty table the compliance score is
(#rows with status in {ok, info, skip} / #rows) * 100, lies in [0, 100],
is 100 when every row passes, and is 0 when every row is in alarm. -/
theorem C4_compliance_score (rows : List ComplianceRow) (h : rows ≠ []) :
    calculate_compliance_score rows =
      ((rows.countP (fun r => passedStatus r.status) : ℚ) / (rows.length : ℚ)) * 100 ∧
    0 ≤ calculate_compliance_score rows ∧
    calculate_compliance_score rows ≤ 100 ∧
    ((∀ r ∈ rows, passedStatus r.status = true) → calculate_compliance_score rows = 100) ∧
    ((∀ r ∈ rows, r.status = "alarm") → calculate_compliance_score rows = 0) := by
  have hn : (0 : ℚ) < (rows.length : ℚ) := by
    exact_mod_cast List.length_pos.mpr h
  have hk : ((rows.countP (fun r => passedStatus r.status) : ℚ)) ≤ (rows.length : ℚ) := by
    exact_mod_cast List.countP_le_length _
  refine ⟨rfl, ?_, ?_, ?_, ?_⟩
  · unfold calculate_compliance_score
    positivity
  · unfold calculate_compliance_score
    have hdiv : ((rows.countP (fun r => passedStatus r.status) : ℚ)) / (rows.length : ℚ) ≤ 1 :=
      (div_le_one hn).mpr hk
    calc ((rows.countP (fun r => passedStatus r.status) : ℚ)) / (rows.length : ℚ) * 100
        ≤ 1 * 100 := by
          exact mul_le_mul_of_nonneg_right hdiv (by norm_num)
      _ = 100 := by norm_num
  · intro hall
    have : rows.countP (fun r => passedStatus r.status) = rows.length :=
      List.countP_eq_length.mpr (fun r hr => hall r hr)
    unfold calculate_compliance_score
    rw [this, div_self (ne_of_gt hn)]
    norm_num
  · intro hall
    have : rows.countP (fun r => passedStatus r.status) = 0 := by
      refine List.countP_eq_zero.mpr ?_
      intro r hr
      rw [hall r hr]
      decide
    unfold calculate_compliance_score
    rw [this]
    norm_num

/-- Witness for C4 at a concrete one-row table (all in alarm). -/
theorem C4_witness :
    calculate_compliance_score [exRowA] ≤ 100 ∧
    calculate_compliance_score [exRowA] = 0 := by
  obtain ⟨_, _, hle, _, hz⟩ := C4_compliance_score [exRowA] (by simp)
  exact ⟨hle, hz (by decide)⟩

/-- C1: every enriched row with a matching reference record carries
risk_score = round(priority_impact(priority) * status_multiplier(status), 2),
where the impact and multiplier tables are exactly the ones of the claim
(High→10, Medium→5, Low→2, Safe→0, else 0; alarm→1.5, ok→0.1, info→0.2,
skip→0.1, else 1), so High/alarm yields 15.0 and Low/ok yields 0.2. -/
theorem C1_risk_score_formula (rows : List ComplianceRow) (ref : List PriorityRecord)
    (i : ℕ) (r : ComplianceRow) (hr : rows[i]? = some r)
    (hmatch : ∃ q ∈ ref, q.control_title = r.control_title) :
    (∃ e : EnrichedRow, (enrich_data rows ref)[i]? = some e ∧
      e.status = r.status ∧
      e.risk_score = round2 (PRIORITY_IMPACT e.priority * status_multiplier e.status)) ∧
    PRIORITY_IMPACT "High" = 10 ∧ PRIORITY_IMPACT "Medium" = 5 ∧
    PRIORITY_IMPACT "Low" = 2 ∧ PRIORITY_IMPACT "Safe" = 0 ∧
    (∀ p, p ∉ (["High", "Medium", "Low", "Safe"] : List String) → PRIORITY_IMPACT p = 0) ∧
    status_multiplier "alarm" = 1.5 ∧ status_multiplier "ok" = 0.1 ∧
    status_multiplier "info" = 0.2 ∧ status_multiplier "skip" = 0.1 ∧
    (∀ s, s ∉ (["alarm", "ok", "info", "skip"] : List String) → status_multiplier s = 1) ∧
    _calculate_risk_score "High" "alarm" = 15 ∧
    _calculate_risk_score "Low" "ok" = 0.2 := by
  refine ⟨?_, by simp [PRIORITY_IMPACT], by simp [PRIORITY_IMPACT], by simp [PRIORITY_IMPACT],
    by simp [PRIORITY_IMPACT], ?_, by simp [status_multiplier], by simp [status_multiplier],
    by simp [status_multiplier], by simp [status_multiplier], ?_, ?_, ?_⟩
  · have hsome : (ref.find? (fun p => p.control_title == r.control_title)).isSome := by
      rw [List.find?_isSome]
      obtain ⟨q, hq, hct⟩ := hmatch
      exact ⟨q, hq, beq_iff_eq.mpr hct⟩
    obtain ⟨p, hfind⟩ := Option.isSome_iff_exists.mp hsome
    refine ⟨enrichRow ref r, ?_, ?_, ?_⟩
    · simp [enrich_data, List.getElem?_map, hr]
    · simp [enrichRow, hfind]
    · simp [enrichRow, hfind, _calculate_risk_score]
  · intro p hp
    simp only [List.mem_cons, List.not_mem_nil, or_false, not_or] at hp
    simp [PRIORITY_IMPACT, hp.1, hp.2.1, hp.2.2.1, hp.2.2.2]
  · intro s hs
    simp only [List.mem_cons, List.not_mem_nil, or_false, not_or] at hs
    simp [status_multiplier, hs.1, hs.2.1, hs.2.2.1, hs.2.2.2]
  · simp only [_calculate_risk_score, PRIORITY_IMPACT, status_multiplier, round2]
    simp only [String.reduceEq, if_false, if_true, reduceIte]
    norm_num [round_eq]
  · simp only [_calculate_risk_score, PRIORITY_IMPACT, status_multiplier, round2]
    simp only [String.reduceEq, if_false, if_true, reduceIte]
    norm_num [round_eq]

/-- Witness for C1: a matched High/alarm row scores 15. -/
theorem C1_witness :
    ∃ e : EnrichedRow, (enrich_data [exRowA] exRefA)[0]? = some e ∧
      e.status = exRowA.status ∧
      e.risk_score = round2 (PRIORITY_IMPACT e.priority * status_multiplier e.status) :=
  (C1_risk_score_formula [exRowA] exRefA 0 exRowA rfl (by decide)).1

/-- C7: the top-recommendations list consists of rows with risk_score > 0
only (as many as exist, capped at 5), is sorted by risk_score descending, and
each entry is the {title, control_title, recommendation, risk_score}
projection of one such row. -/
theorem C7_top_recommendations (rows : List EnrichedRow) :
    (_extract_top_recommendations rows).length =
      min 5 (rows.countP (fun r => decide (0 < r.risk_score))) ∧
    List.Sorted (fun a b : TopRecommendation => b.risk_score ≤ a.risk_score)
      (_extract_top_recommendations rows) ∧
    ∀ t ∈ _extract_top_recommendations rows,
      ∃ r ∈ rows, 0 < r.risk_score ∧ t = projectRec r := by
  have htrans : ∀ a b c : EnrichedRow,
      riskDescLe a b = true → riskDescLe b c = true → riskDescLe a c = true := by
    intro a b c hab hbc
    simp only [riskDescLe, decide_eq_true_eq] at *
    exact le_trans hbc hab
  have htotal : ∀ a b : EnrichedRow, (riskDescLe a b || riskDescLe b a) = true := by
    intro a b
    simp only [riskDescLe, Bool.or_eq_true, decide_eq_true_eq]
    exact le_total b.risk_score a.risk_score
  refine ⟨?_, ?_, ?_⟩
  · unfold _extract_top_recommendations
    rw [List.length_map, List.length_take,
      (List.mergeSort_perm _ _).length_eq, ← List.countP_eq_length_filter]
  · unfold _extract_top_recommendations
    rw [List.Sorted, List.pairwise_map]
    refine List.Pairwise.sublist (List.take_sublist _ _) ?_
    have hs := List.sorted_mergeSort htrans htotal
      (rows.filter (fun r => decide (0 < r.risk_score)))
    refine hs.imp ?_
    intro a b hab
    simpa [riskDescLe, projectRec] using hab
  · intro t ht
    unfold _extract_top_recommendations at ht
    obtain ⟨r, hrt, rfl⟩ := List.mem_map.mp ht
    have hr1 : r ∈ (rows.filter (fun r => decide (0 < r.risk_score))).mergeSort riskDescLe :=
      List.take_subset _ _ hrt
    have hr2 : r ∈ rows.filter (fun r => decide (0 < r.risk_score)) :=
      (List.mergeSort_perm _ _).mem_iff.mp hr1
    obtain ⟨hr3, hr4⟩ := List.mem_filter.mp hr2
    exact ⟨r, hr3, of_decide_eq_true hr4, rfl⟩

/-- A non-empty list of rows each scoring above 5 sums above 5. -/
theorem sumRisk_gt_five (l : List EnrichedRow) (r : EnrichedRow) (hr : r ∈ l)
    (h : ∀ x ∈ l, 5 < x.risk_score) : 5 < sumRisk l := by
  cases l with
  | nil => cases hr
  | cons a as =>
    have ha : 5 < a.risk_score := h a (by simp)
    have hrest : 0 ≤ (as.map EnrichedRow.risk_score).sum := by
      refine List.sum_nonneg ?_
      intro q hq
      obtain ⟨x, hx, rfl⟩ := List.mem_map.mp hq
      have := h x (by simp [hx])
      linarith
    unfold sumRisk
    simp only [List.map_cons, List.sum_cons]
    linarith

/-- Counterexample for C2: the code filters individual rows with
risk_score > 5 before grouping, while the claim filters grouped sums.  On a
service with two rows of score 3 (cumulative 6 > 5) the code emits an empty
ranking, whereas the claim's procedure emits the service with score 6. -/
theorem C2_counterexample :
    high_risk_services exC2 = [] ∧
    high_risk_services_spec exC2 = [("EC2", 6)] ∧
    high_risk_services exC2 ≠ high_risk_services_spec exC2 := by
  have hfil : exC2.filter (fun r => decide (5 < r.risk_score)) = [] := by
    norm_num [exC2, List.filter_cons, List.filter_nil]
  have hcode : high_risk_services exC2 = [] := by
    simp [high_risk_services, hfil, groupSums, serviceTitles, nlargest5, List.mergeSort_nil]
  have h1 : serviceTitles exC2 = ["EC2"] := by
    simp [serviceTitles, exC2, List.mergeSort_singleton, mkRow]
  have hgf : exC2.filter (fun r => r.title == "EC2") = exC2 := by
    simp [exC2, List.filter_cons, mkRow]
  have h2 : groupSums exC2 = [("EC2", 6)] := by
    simp only [groupSums, h1, List.map]
    rw [hgf]
    norm_num [sumRisk, exC2]
  have hkeep : ([("EC2", (6:ℚ))].filter (fun p => decide (5 < p.2))) = [("EC2", 6)] := by
    norm_num [List.filter_cons, List.filter_nil]
  have hspec : high_risk_services_spec exC2 = [("EC2", 6)] := by
    rw [high_risk_services_spec, h2, hkeep, nlargest5, List.mergeSort_singleton]
    rfl
  exact ⟨hcode, hspec, by rw [hcode, hspec]; simp⟩

/-- C2 as amended: the ranking keeps the rows with risk_score > 5, groups
them by title, sums per title, and returns at most five entries sorted by
score in non-increasing order; every emitted cumulative score exceeds 5. -/
theorem C2_amended_ranking (rows : List EnrichedRow) :
    (∀ e ∈ high_risk_services rows, 5 < e.2) ∧
    List.Sorted (fun a b : String × ℚ => b.2 ≤ a.2) (high_risk_services rows) ∧
    (high_risk_services rows).length ≤ 5 := by
  have htrans : ∀ a b c : String × ℚ,
      valueDescLe a b = true → valueDescLe b c = true → valueDescLe a c = true := by
    intro a b c hab hbc
    simp only [valueDescLe, decide_eq_true_eq] at *
    exact le_trans hbc hab
  have htotal : ∀ a b : String × ℚ, (valueDescLe a b || valueDescLe b a) = true := by
    intro a b
    simp only [valueDescLe, Bool.or_eq_true, decide_eq_true_eq]
    exact le_total b.2 a.2
  refine ⟨?_, ?_, ?_⟩
  · intro e he
    unfold high_risk_services nlargest5 at he
    have he1 : e ∈ groupSums (rows.filter (fun r => decide (5 < r.risk_score))) :=
      (List.mergeSort_perm _ _).mem_iff.mp (List.take_subset _ _ he)
    unfold groupSums at he1
    obtain ⟨t, ht, rfl⟩ := List.mem_map.mp he1
    unfold serviceTitles at ht
    have ht2 : t ∈ (rows.filter (fun r => decide (5 < r.risk_score))).map (fun r => r.title) :=
      List.mem_dedup.mp ((List.mergeSort_perm _ _).mem_iff.mp ht)
    obtain ⟨r, hrf, hrt⟩ := List.mem_map.mp ht2
    have hrg : r ∈ (rows.filter (fun r => decide (5 < r.risk_score))).filter
        (fun x => x.title == t) :=
      List.mem_filter.mpr ⟨hrf, beq_iff_eq.mpr hrt⟩
    refine sumRisk_gt_five _ r hrg ?_
    intro x hx
    exact of_decide_eq_true ((List.mem_filter.mp ((List.mem_filter.mp hx).1)).2)
  · unfold high_risk_services nlargest5
    rw [List.Sorted]
    refine List.Pairwise.sublist (List.take_sublist _ _) ?_
    have hs := List.sorted_mergeSort htrans htotal
      (groupSums (rows.filter (fun r => decide (5 < r.risk_score))))
    refine hs.imp ?_
    intro a b hab
    simpa [valueDescLe] using hab
  · unfold high_risk_services nlargest5
    exact List.length_take_le _ _

/-- Witness for the amended C2: a concrete emitted entry scores above 5. -/
theorem C2_witness :
    ("EC2", (15 : ℚ)) ∈ high_risk_services exC2w ∧ (5 : ℚ) < 15 := by
  have hfil : exC2w.filter (fun r => decide (5 < r.risk_score)) = exC2w := by
    norm_num [exC2w, List.filter_cons, List.filter_nil]
  have h1 : serviceTitles exC2w = ["EC2"] := by
    simp [serviceTitles, exC2w, List.mergeSort_singleton, mkRow]
  have hgf : exC2w.filter (fun r => r.title == "EC2") = exC2w := by
    simp [exC2w, List.filter_cons, mkRow]
  have h2 : groupSums exC2w = [("EC2", 15)] := by
    simp only [groupSums, h1, List.map]
    rw [hgf]
    norm_num [sumRisk, exC2w]
  have hmem : ("EC2", (15 : ℚ)) ∈ high_risk_services exC2w := by
    rw [high_risk_services, hfil, nlargest5, h2, List.mergeSort_singleton]
    simp
  exact ⟨hmem, (C2_amended_ranking exC2w).1 ("EC2", 15) hmem⟩

/-- Witness for C7 at a concrete one-row table. -/
theorem C7_witness :
    projectRec exE15 ∈ _extract_top_recommendations [exE15] ∧
    ∃ r ∈ [exE15], 0 < r.risk_score ∧ projectRec exE15 = projectRec r := by
  have hfilter : ([exE15].filter (fun r => decide (0 < r.risk_score))) = [exE15] := by
    simp only [List.filter, exE15]
    norm_num
  have hmem : projectRec exE15 ∈ _extract_top_recommendations [exE15] := by
    unfold _extract_top_recommendations
    rw [hfilter, List.mergeSort_singleton]
    simp
  exact ⟨hmem, (C7_top_recommendations [exE15]).2.2 (projectRec exE15) hmem⟩

namespace PivotReport

/-- An appended list is empty exactly when both halves are. -/
theorem isEmpty_append_eq {α : Type} (l l2 : List α) :
    (l ++ l2).isEmpty = (l.isEmpty && l2.isEmpty) := by
  cases l <;> simp [List.isEmpty]

/-- The source's fold (blank row appended whenever the accumulated list is
non-empty) agrees with the per-category description (blank row appended when
this or an earlier category contributed rows), given that the accumulator is
empty exactly when nothing has been contributed yet. -/
theorem specSummaryGo_foldl (rows : List Row) (cats : List (String × List String)) :
    ∀ (acc : List (Option SummaryRow)) (seen : Bool), acc.isEmpty = !seen →
      cats.foldl (summStep rows) acc = acc ++ specSummaryGo rows cats seen := by
  induction cats with
  | nil =>
    intro acc seen _
    simp [specSummaryGo]
  | cons c cs ih =>
    intro acc seen h
    rw [List.foldl_cons]
    by_cases h2 : (seen || !((chunk c.2 rows).map some).isEmpty) = true
    · have hkey : (acc ++ (chunk c.2 rows).map some).isEmpty = false := by
        rw [isEmpty_append_eq, h]
        cases seen with
        | true => rfl
        | false =>
          simp only [Bool.false_or, Bool.not_eq_true'] at h2
          simp [h2]
      have hstep : summStep rows acc c = (acc ++ (chunk c.2 rows).map some) ++ [none] := by
        rw [summStep, hkey]
        simp
      rw [hstep, ih _ true (by simp)]
      simp only [specSummaryGo, h2]
      simp [List.append_assoc]
    · have hseen : seen = false := by
        cases seen
        · rfl
        · simp at h2
      subst hseen
      have hch : ((chunk c.2 rows).map some).isEmpty = true := by
        simpa using h2
      have hacc : acc = [] := by
        have h3 : acc.isEmpty = true := by simpa using h
        exact List.isEmpty_iff.mp h3
      have hchl : (chunk c.2 rows).map some = [] := List.isEmpty_iff.mp hch
      have hstep : summStep rows acc c = acc := by
        rw [summStep, hacc, hchl]
        simp
      rw [hstep, ih acc false h]
      simp only [specSummaryGo, hchl]
      simp

/-- The emitted summary sequence equals its amended-claim description. -/
theorem categorySummary_eq_spec (rows : List Row) :
    categorySummary rows = categorySummarySpec rows := by
  rw [categorySummary, categorySummarySpec,
    specSummaryGo_foldl rows categories [] false rfl]
  simp

/-- Rows with a missing mapped priority contribute no grouping key. -/
theorem filterMap_rowKey_filter (l : List Row) :
    (l.filter (fun x => x.priority.isSome)).filterMap rowKey = l.filterMap rowKey := by
  induction l with
  | nil => rfl
  | cons a as ih =>
    by_cases ha : a.priority.isSome = true
    · rw [show (a :: as).filter (fun x => x.priority.isSome)
          = a :: as.filter (fun x => x.priority.isSome) by simp [List.filter_cons, ha]]
      simp only [List.filterMap_cons]
      cases rowKey a
      · exact ih
      · rw [ih]
    · have hnone : a.priority = none := by
        cases hp : a.priority
        · rfl
        · rw [hp] at ha
          simp at ha
      have hk : rowKey a = none := by
        simp [rowKey, hnone]
      rw [show (a :: as).filter (fun x => x.priority.isSome)
          = as.filter (fun x => x.priority.isSome) by simp [List.filter_cons, ha]]
      simp only [List.filterMap_cons, hk]
      exact ih

/-- Dropping the missing-priority rows leaves the group keys unchanged. -/
theorem groupKeys_filter_isSome (l : List Row) :
    groupKeys (l.filter (fun x => x.priority.isSome)) = groupKeys l := by
  rw [groupKeys, groupKeys, filterMap_rowKey_filter]

/-- Dropping the missing-priority rows leaves every group sum unchanged. -/
theorem openCount_filter_isSome (l : List Row) (k : GroupKey) :
    openCount (l.filter (fun x => x.priority.isSome)) k = openCount l k := by
  rw [openCount, openCount, List.filter_filter]
  congr 2
  apply List.filter_congr
  intro r _
  by_cases hk : rowKey r = some k
  · have hsome : r.priority.isSome = true := by
      cases hp : r.priority
      · simp [rowKey, hp] at hk
      · rfl
    simp [hk, hsome]
  · simp [hk]

/-- Dropping the missing-priority rows leaves a category's grouped rows
unchanged. -/
theorem chunk_filter_isSome (svcList : List String) (rows : List Row) :
    chunk svcList (rows.filter (fun x => x.priority.isSome)) = chunk svcList rows := by
  rw [chunk, chunk, List.filter_comm, groupKeys_filter_isSome]
  apply List.map_congr_left
  intro k _
  rw [openCount_filter_isSome]

/-- The summary depends on the rows only through the per-category chunks. -/
theorem categorySummary_congr (rows rows2 : List Row)
    (h : ∀ svcList : List String, chunk svcList rows = chunk svcList rows2) :
    categorySummary rows = categorySummary rows2 := by
  rw [categorySummary, categorySummary]
  congr 1
  funext acc c
  rw [summStep, summStep, h c.2]

/-- Rows whose mapped priority is missing are invisible to the whole summary
sheet: filtering them away changes nothing. -/
theorem categorySummary_filter_isSome (rows : List Row) :
    categorySummary (rows.filter (fun x => x.priority.isSome)) = categorySummary rows :=
  categorySummary_congr _ _ (fun svcList => chunk_filter_isSome svcList rows)

/-- Summing the 0/1 open-issue indicator counts the alarm rows. -/
theorem sum_open_eq_countP (l : List Row)
    (h : ∀ r ∈ l, r.is_open_issue = if r.status = "alarm" then 1 else 0) :
    (l.map Row.is_open_issue).sum = l.countP (fun r => decide (r.status = "alarm")) := by
  induction l with
  | nil => rfl
  | cons a as ih =>
    rw [List.map_cons, List.sum_cons, List.countP_cons,
      ih (fun r hr => h r (List.mem_cons_of_mem a hr)), h a (List.mem_cons_self a as)]
    by_cases ha : a.status = "alarm"
    · simp [ha, Nat.add_comm]
    · simp [ha]

/-- The group keys of any row list are pairwise distinct. -/
theorem groupKeys_nodup (rows : List Row) : (groupKeys rows).Nodup :=
  ((List.perm_insertionSort (fun a b => keyLe a b = true)
    ((rows.filterMap rowKey).dedup)).symm).nodup (List.nodup_dedup _)

/-- A key is a group key exactly when some row (with its priority mapped)
carries it. -/
theorem groupKeys_mem (rows : List Row) (k : GroupKey) :
    k ∈ groupKeys rows ↔ ∃ r ∈ rows, rowKey r = some k := by
  rw [groupKeys, (List.perm_insertionSort _ _).mem_iff, List.mem_dedup, List.mem_filterMap]

/-- On rows whose indicator field is consistent with their status (as the
pipeline always arranges), each emitted group row's Open Issues value is the
number of alarm rows of that group. -/
theorem chunk_eq_claimChunk (svcList : List String) (rows : List Row)
    (h : ∀ r ∈ rows, r.is_open_issue = if r.status = "alarm" then 1 else 0) :
    chunk svcList rows = claimChunk svcList rows := by
  rw [chunk, claimChunk]
  apply List.map_congr_left
  intro k _
  congr 1
  rw [openCount,
    sum_open_eq_countP _
      (fun r hr => h r (List.mem_of_mem_filter (List.mem_of_mem_filter hr))),
    List.countP_filter]

end PivotReport

open PivotReport

/-- Counterexample for C3: on an input with one IAM row (priority code 1 and
so one Security combination) and one EC2 row (priority code 7 and so one
Compute combination), the claim predicts two summary rows and two blank
separators, but the code emits one summary row (the EC2 row's missing mapped
priority makes its group vanish) and six blank separators (once any earlier
category emitted rows, every later category appends a blank row too). -/
theorem C3_counterexample :
    (categorySummary (exC3.map preprocess)).countP (fun o => o.isSome) ≠ claimedRowCount exC3 ∧
    (categorySummary (exC3.map preprocess)).countP (fun o => o.isNone) ≠ claimedBlankCount exC3 := by
  decide

/-- C3 as amended: the emitted summary sequence contains, per category, one
row per distinct (title, control_title, control_description, mapped priority)
combination among rows whose title is in the category's service list and
whose mapped priority is present, each with Open Issues the number of alarm
rows of its group, followed by one blank row exactly when that category or an
earlier one had at least one combination; the same holds for the safe
(non-alarm) subset. -/
theorem C3_amended_category_summary (input : List InputRow) :
    categorySummary (input.map preprocess) = categorySummarySpec (input.map preprocess) ∧
    categorySummary (safeRows (input.map preprocess)) =
      categorySummarySpec (safeRows (input.map preprocess)) ∧
    (∀ rows : List Row, (groupKeys rows).Nodup) ∧
    (∀ (rows : List Row) (k : GroupKey),
      k ∈ groupKeys rows ↔ ∃ r ∈ rows, rowKey r = some k) ∧
    (∀ (rows : List Row) (svcList : List String),
      (∀ r ∈ rows, r.is_open_issue = if r.status = "alarm" then 1 else 0) →
      chunk svcList rows = claimChunk svcList rows) :=
  ⟨categorySummary_eq_spec _, categorySummary_eq_spec _, groupKeys_nodup, groupKeys_mem,
    fun rows svcList h => chunk_eq_claimChunk svcList rows h⟩

/-- Witness for the amended C3 at the concrete counterexample input. -/
theorem C3_witness :
    chunk ["IAM"] (exC3.map preprocess) = claimChunk ["IAM"] (exC3.map preprocess) :=
  (C3_amended_category_summary exC3).2.2.2.2 (exC3.map preprocess) ["IAM"] (by decide)

/-- C10: a row whose numeric priority is not 1, 2 or 3 gets a missing mapped
priority, is invisible to both category summary sheets (dropping all such
rows leaves both `table` and `table_safe` unchanged), yet still appears in
the safe/unsafe split. -/
theorem C10_unmapped_priority_dropped (input : List InputRow) (r : InputRow)
    (hr : r ∈ input) (hp : priority_map r.priority = none) :
    (preprocess r).priority = none ∧
    (∀ rows : List Row,
      categorySummary (rows.filter (fun x => x.priority.isSome)) = categorySummary rows) ∧
    categorySummary ((input.map preprocess).filter (fun x => x.priority.isSome)) =
      categorySummary (input.map preprocess) ∧
    categorySummary ((safeRows (input.map preprocess)).filter (fun x => x.priority.isSome)) =
      categorySummary (safeRows (input.map preprocess)) ∧
    (preprocess r ∈ safeRows (input.map preprocess) ∨
      preprocess r ∈ unsafeRows (input.map preprocess)) := by
  refine ⟨by simp [preprocess, hp], categorySummary_filter_isSome,
    categorySummary_filter_isSome _, categorySummary_filter_isSome _, ?_⟩
  have hmem : preprocess r ∈ input.map preprocess := List.mem_map_of_mem _ hr
  by_cases hs : r.status = "alarm"
  · right
    exact List.mem_filter.mpr ⟨hmem, by simp [preprocess, hs]⟩
  · left
    exact List.mem_filter.mpr ⟨hmem, by simp [preprocess, hs]⟩

/-- Witness for C10 at a concrete row with priority code 7. -/
theorem C10_witness :
    (preprocess (⟨"IAM", "c1", "d1", "ok", 7⟩ : InputRow)).priority = none ∧
    categorySummary ((exC10.map preprocess).filter (fun x => x.priority.isSome)) =
      categorySummary (exC10.map preprocess) ∧
    (preprocess (⟨"IAM", "c1", "d1", "ok", 7⟩ : InputRow) ∈ safeRows (exC10.map preprocess) ∨
      preprocess (⟨"IAM", "c1", "d1", "ok", 7⟩ : InputRow) ∈ unsafeRows (exC10.map preprocess)) := by
  obtain ⟨h1, _, h3, _, h5⟩ :=
    C10_unmapped_priority_dropped exC10 ⟨"IAM", "c1", "d1", "ok", 7⟩ (by simp [exC10]) (by decide)
  exact ⟨h1, h3, h5⟩
